import Mathlib

/-!
Verification of the grid-world tutorial notebook and the A-matrix demo
notebook of this repository.  The tutorial builds a 3x3 grid world with
9 linear states, a likelihood matrix `A = np.eye(9)`, a next-state
dictionary `P` and a transition array `B` of shape 9x9x5.  The demo
builds a labelled likelihood table (an A matrix stub) over two hidden
state factors and two observation modalities, fills it with
probabilities, and builds a one-hot observation object.
-/

namespace GridWorld

/-- Grid side length: the notebook sets `dim = 3`. -/
def dim : Nat := 3

/-- `num_states = 9` in the notebook. -/
def num_states : Nat := 9

/-- The `state_mapping` dictionary of the tutorial, mapping each linear
state index to its `(x, y)` grid coordinates, as an association list. -/
def state_mapping : List (Nat × (Nat × Nat)) :=
  [(0, (0, 0)), (1, (1, 0)), (2, (2, 0)), (3, (0, 1)), (4, (1, 1)),
   (5, (2, 1)), (6, (0, 2)), (7, (1, 2)), (8, (2, 2))]

/-- The `actions` dictionary of the tutorial. -/
def actions : List (String × Nat) :=
  [("UP", 0), ("RIGHT", 1), ("DOWN", 2), ("LEFT", 3), ("STAY", 4)]

/-- Number of actions, `len(actions)` in the notebook. -/
def num_actions : Nat := actions.length

/-- The per-action branch of the loop body building `P`: given the linear
index and the `(x, y)` coordinates of a state, the next state under
action `a` (0 = UP, 1 = RIGHT, 2 = DOWN, 3 = LEFT, 4 = STAY). -/
def next_state (state_index x y a : Nat) : Nat :=
  if a = 0 then (if y = 0 then state_index else state_index - dim)
  else if a = 1 then (if x = dim - 1 then state_index else state_index + 1)
  else if a = 2 then (if y = dim - 1 then state_index else state_index + dim)
  else if a = 3 then (if x = 0 then state_index else state_index - 1)
  else state_index

/-- The dictionary `P` of the tutorial: `P s a` is the next state of
state `s` under action `a`.  A missing dictionary key gives `none`. -/
def P (state_index a : Nat) : Option Nat :=
  if a < num_actions then
    (state_mapping.lookup state_index).map
      (fun xy => next_state state_index xy.1 xy.2 a)
  else none

/-- The transition array `B` of the tutorial: a 9x9x5 array of zeros in
which the entry at `(P s a, s, a)` is set to 1 for every `s < 9` and
`a < 5`. -/
def B (ns s a : Nat) : ℚ :=
  if s < num_states ∧ a < num_actions ∧ P s a = some ns then 1 else 0

/-- The likelihood matrix of the tutorial, `A = np.eye(9)`. -/
def A (i j : Nat) : ℚ :=
  if i < 9 ∧ j < 9 ∧ i = j then 1 else 0

/-- The x coordinate a state index is mapped to by `state_mapping`. -/
def coord_x (s : Nat) : Nat := ((state_mapping.lookup s).getD (0, 0)).1

/-- The y coordinate a state index is mapped to by `state_mapping`. -/
def coord_y (s : Nat) : Nat := ((state_mapping.lookup s).getD (0, 0)).2

/-- Whether action `a` taken at coordinates `(x, y)` would move off the
3x3 grid: UP at the top row, RIGHT at the rightmost column, DOWN at the
bottom row, LEFT at the leftmost column. -/
def off_grid (x y a : Nat) : Bool :=
  (a == 0 && y == 0) || (a == 1 && x == dim - 1) ||
  (a == 2 && y == dim - 1) || (a == 3 && x == 0)

/-- The `grid` array of the tutorial: a 3x3 array of zeros in which, for
every `(linear_index, (x, y))` item of `state_mapping`, the entry at
`(y, x)` is set to `linear_index`. -/
def grid : Nat → Nat → Nat :=
  state_mapping.foldl
    (fun g p => fun y x => if y = p.2.2 ∧ x = p.2.1 then p.1 else g y x)
    (fun _ _ => 0)

/-- Two consecutive dictionary moves, `P (P s a) b`. -/
def P2 (s a b : Nat) : Option Nat :=
  (P s a).bind (fun m => P m b)

end GridWorld

namespace Demo

/-- The outcome labels of the `grass_observation` modality in
`model_labels`. -/
def grass_outcomes : List String := ["wet", "dry"]

/-- The outcome labels of the `weather_observation` modality in
`model_labels`. -/
def weather_outcomes : List String := ["clear", "rainy", "cloudy"]

/-- The levels of the `did_it_rain` hidden state factor. -/
def rain_states : List String := ["rained", "did_not_rain"]

/-- The levels of the `was_sprinkler_on` hidden state factor. -/
def sprinkler_states : List String := ["on", "off"]

/-- The row labels of the A-matrix stub: one row per (modality, outcome)
pair. -/
def row_labels : List (String × String) :=
  [("grass_observation", "wet"), ("grass_observation", "dry"),
   ("weather_observation", "clear"), ("weather_observation", "rainy"),
   ("weather_observation", "cloudy")]

/-- The column labels of the A-matrix stub: one column per hidden-state
configuration (did_it_rain level, was_sprinkler_on level). -/
def col_labels : List (String × String) :=
  [("rained", "on"), ("rained", "off"),
   ("did_not_rain", "on"), ("did_not_rain", "off")]

/-- A labelled probability table: a cell for every (row label, column
label) pair. -/
abbrev Stub := (String × String) → (String × String) → ℚ

/-- Modelled from the spec: `create_A_matrix_stub(model_labels)` (pymdp
utility code not under src/) builds the empty A-matrix stub, a labelled
table whose cells are all unfilled, read back as zero. -/
def create_A_matrix_stub : Stub := fun _ _ => 0

/-- One cell assignment `A_stub.loc[r, c] = v` of the demo notebook. -/
def set_cell (t : Stub) (r c : String × String) (v : ℚ) : Stub :=
  fun r2 c2 => if r2 = r ∧ c2 = c then v else t r2 c2

/-- The block assignment
`A_stub.loc[weather_observation, rain_level] = np.tile(vec, (1, 2))` of
the demo notebook: each weather outcome row gets its entry of the
column vector, repeated across both sprinkler levels. -/
def set_weather_block (t : Stub) (rain_level : String)
    (vals : List (String × ℚ)) : Stub :=
  vals.foldl
    (fun acc p =>
      sprinkler_states.foldl
        (fun acc2 sp =>
          set_cell acc2 ("weather_observation", p.1) (rain_level, sp) p.2)
        acc)
    t

/-- The Option-2 hand-filled A-matrix stub of the demo notebook. -/
def A_stub_filled : Stub :=
  let t := create_A_matrix_stub
  let t := set_cell t ("grass_observation", "wet") ("rained", "on") 1.0
  let t := set_cell t ("grass_observation", "wet") ("rained", "off") 0.7
  let t := set_cell t ("grass_observation", "dry") ("rained", "off") 0.3
  let t := set_cell t ("grass_observation", "wet") ("did_not_rain", "on") 0.5
  let t := set_cell t ("grass_observation", "dry") ("did_not_rain", "on") 0.5
  let t := set_cell t ("grass_observation", "dry") ("did_not_rain", "off") 1.0
  let t := set_weather_block t "rained"
    [("clear", 0.1), ("rainy", 0.65), ("cloudy", 0.25)]
  let t := set_weather_block t "did_not_rain"
    [("clear", 0.9), ("rainy", 0.05), ("cloudy", 0.05)]
  t

/-- Modelled from the spec: `A_stub.to_excel(excel_path)` (pandas, not
under src/) writes the labelled table to a spreadsheet file: one sheet
row per row label, holding the cells of that row in column order. -/
def to_excel (t : Stub) :
    List ((String × String) × List ((String × String) × ℚ)) :=
  row_labels.map (fun r => (r, col_labels.map (fun c => (c, t r c))))

/-- Modelled from the spec: `read_A_matrix(excel_path, n_factors)`
(pymdp utility code not under src/) reads the spreadsheet back into a
labelled table, locating each cell by its row and column labels. -/
def read_A_matrix
    (f : List ((String × String) × List ((String × String) × ℚ))) : Stub :=
  fun r c =>
    match f.find? (fun p => decide (p.1 = r)) with
    | none => 0
    | some p =>
      match p.2.find? (fun q2 => decide (q2.1 = c)) with
      | none => 0
      | some q2 => q2.2

/-- Modelled from the spec: `get_model_dimensions_from_labels` (pymdp
utility code not under src/) returns, as `num_obs`, the number of
outcomes of each observation modality of `model_labels`. -/
def num_obs : List Nat := [grass_outcomes.length, weather_outcomes.length]

/-- Modelled from the spec: `utils.obj_array_zeros(num_obs)` (pymdp
utility code not under src/) builds one zero vector per modality, of
that modality dimension. -/
def obj_array_zeros (dims : List Nat) : List (List ℚ) :=
  dims.map (fun d => List.replicate d 0)

/-- The observation object of the demo notebook: starting from
`obj_array_zeros(num_obs)`, the loop sets entry `obs_idx[g]` of modality
`g` to 1.0. -/
def build_observation (obs_idx : List Nat) : List (List ℚ) :=
  (List.range num_obs.length).foldl
    (fun obs g => obs.set g ((obs.getD g []).set (obs_idx.getD g 0) 1))
    (obj_array_zeros num_obs)

/-- The sum of the grass_observation entries of one state column of the
filled A-matrix stub. -/
def grass_col_sum (c : String × String) : ℚ :=
  (grass_outcomes.map (fun o => A_stub_filled ("grass_observation", o) c)).sum

/-- The sum of the weather_observation entries of one state column of
the filled A-matrix stub. -/
def weather_col_sum (c : String × String) : ℚ :=
  (weather_outcomes.map
    (fun o => A_stub_filled ("weather_observation", o) c)).sum

end Demo

namespace GridWorld

/-- For every state and action the dictionary `P` yields a next state in
range. -/
lemma P_in_range : ∀ (s : Fin 9) (a : Fin 5),
    ∃ m : Fin 9, P s.val a.val = some m.val := by decide

/-- Every column of the transition array `B` sums to 1. -/
lemma B_column_sum (s a : Nat) (hs : s < 9) (ha : a < 5) :
    (∑ ns ∈ Finset.range 9, B ns s a) = 1 := by
  obtain ⟨m, hP⟩ := P_in_range ⟨s, hs⟩ ⟨a, ha⟩
  have hB : ∀ ns, B ns s a = if (m : Nat) = ns then (1 : ℚ) else 0 := by
    intro ns
    simp [B, num_states, num_actions, actions, hs, ha, hP]
  rw [Finset.sum_congr rfl fun ns _ => hB ns]
  simp [Finset.sum_ite_eq, m.isLt]

/-- Every row of the likelihood matrix `A` sums to 1. -/
lemma A_row_sum (i : Nat) (hi : i < 9) :
    (∑ j ∈ Finset.range 9, A i j) = 1 := by
  have hA : ∀ j ∈ Finset.range 9, A i j = if i = j then (1 : ℚ) else 0 := by
    intro j hj
    simp [A, hi, Finset.mem_range.mp hj]
  rw [Finset.sum_congr rfl hA]
  simp [Finset.sum_ite_eq, hi]

/-- Every column of the likelihood matrix `A` sums to 1. -/
lemma A_col_sum (j : Nat) (hj : j < 9) :
    (∑ i ∈ Finset.range 9, A i j) = 1 := by
  have hA : ∀ i ∈ Finset.range 9, A i j = if i = j then (1 : ℚ) else 0 := by
    intro i hi
    simp [A, hj, Finset.mem_range.mp hi]
  rw [Finset.sum_congr rfl hA]
  simp [Finset.sum_ite_eq', hj]

/-- Claim C1: for every prior state s in 0..8 and action a in 0..4, the
column of the transition array B at (s, a) is a proper distribution:
summing B over the next states gives 1. -/
theorem C1_B_column_is_distribution (s : Fin 9) (a : Fin 5) :
    (∑ ns ∈ Finset.range 9, B ns s.val a.val) = 1 :=
  B_column_sum s.val a.val s.isLt a.isLt

/-- Claim C2: the grid-world transitions are deterministic: for every
state s and action a there is exactly one next state with B entry 1 and
all other entries of that column are 0; and whenever the action would
move off the 3x3 grid, the next state is s itself. -/
theorem C2_deterministic_with_boundary (s : Fin 9) (a : Fin 5) :
    (∃ ns : Fin 9, B ns.val s.val a.val = 1 ∧
      ∀ ns2 : Fin 9, ns2 ≠ ns → B ns2.val s.val a.val = 0) ∧
    (off_grid (coord_x s.val) (coord_y s.val) a.val = true →
      P s.val a.val = some s.val) := by
  revert s a; decide

/-- Witness for C2 at state 0 and action UP (a boundary case: y = 0). -/
theorem C2_deterministic_with_boundary_witness :
    (∃ ns : Fin 9, B ns.val (0 : Fin 9).val (0 : Fin 5).val = 1 ∧
      ∀ ns2 : Fin 9, ns2 ≠ ns → B ns2.val (0 : Fin 9).val (0 : Fin 5).val = 0) ∧
    P (0 : Fin 9).val (0 : Fin 5).val = some (0 : Fin 9).val :=
  ⟨(C2_deterministic_with_boundary 0 0).1,
   (C2_deterministic_with_boundary 0 0).2 (by decide)⟩

/-- Claim C3 counterexample: row 0 of the action-UP slice of B does not
sum to 1 (both state 0 and state 3 move to state 0 under UP, so the row
sums to 2). -/
theorem C3_row_sum_counterexample :
    (∑ s ∈ Finset.range 9, B 0 s 0) ≠ 1 := by
  have h2 : (∑ s ∈ Finset.range 9, B 0 s 0) = 2 := by
    rw [Finset.sum_range_succ, Finset.sum_range_succ, Finset.sum_range_succ,
        Finset.sum_range_succ, Finset.sum_range_succ, Finset.sum_range_succ,
        Finset.sum_range_succ, Finset.sum_range_succ, Finset.sum_range_succ,
        Finset.sum_range_zero]
    rw [show B 0 0 0 = 1 from by decide, show B 0 1 0 = 0 from by decide,
        show B 0 2 0 = 0 from by decide, show B 0 3 0 = 1 from by decide,
        show B 0 4 0 = 0 from by decide, show B 0 5 0 = 0 from by decide,
        show B 0 6 0 = 0 from by decide, show B 0 7 0 = 0 from by decide,
        show B 0 8 0 = 0 from by decide]
    norm_num
  rw [h2]; norm_num

/-- Claim C3 as amended: every row and every column of the likelihood
matrix A sums to 1, and every column of each per-action slice of B sums
to 1 (the rows of the B slices need not sum to 1). -/
theorem C3_stochastic_matrix_sums (i : Fin 9) (a : Fin 5) :
    (∑ j ∈ Finset.range 9, A i.val j) = 1 ∧
    (∑ i2 ∈ Finset.range 9, A i2 i.val) = 1 ∧
    (∑ ns ∈ Finset.range 9, B ns i.val a.val) = 1 :=
  ⟨A_row_sum i.val i.isLt, A_col_sum i.val i.isLt,
   B_column_sum i.val a.val i.isLt a.isLt⟩

/-- Claim C4: the likelihood matrix A is the 9x9 identity matrix, so
the agent observes its true state with probability 1. -/
theorem C4_A_is_identity (i j : Fin 9) :
    A i.val j.val = if i = j then 1 else 0 := by
  revert i j; decide

/-- Claim C8: state_mapping is a bijection between linear indices and
grid coordinates with linear index = 3 * y + x, the visualization grid
holds the linear index at each coordinate pair, and every next state
produced by P stays in range. -/
theorem C8_state_mapping_bijection (s t : Fin 9) (x y : Fin 3) (a : Fin 5)
    (hst : coord_x s.val = coord_x t.val ∧ coord_y s.val = coord_y t.val) :
    s = t ∧
    (s.val = 3 * coord_y s.val + coord_x s.val ∧
      coord_x s.val < 3 ∧ coord_y s.val < 3) ∧
    (∃ u : Fin 9, coord_x u.val = x.val ∧ coord_y u.val = y.val) ∧
    grid y.val x.val = 3 * y.val + x.val ∧
    (∃ ns : Fin 9, P s.val a.val = some ns.val) := by
  revert s t x y a; decide

/-- Witness for C8 at s = t = 4, x = 1, y = 2, a = 3. -/
theorem C8_state_mapping_bijection_witness :
    (4 : Fin 9) = (4 : Fin 9) ∧
    ((4 : Fin 9).val = 3 * coord_y (4 : Fin 9).val + coord_x (4 : Fin 9).val ∧
      coord_x (4 : Fin 9).val < 3 ∧ coord_y (4 : Fin 9).val < 3) ∧
    (∃ u : Fin 9, coord_x u.val = (1 : Fin 3).val ∧
      coord_y u.val = (2 : Fin 3).val) ∧
    grid (2 : Fin 3).val (1 : Fin 3).val = 3 * (2 : Fin 3).val + (1 : Fin 3).val ∧
    (∃ ns : Fin 9, P (4 : Fin 9).val (3 : Fin 5).val = some ns.val) :=
  C8_state_mapping_bijection 4 4 1 2 3 (by decide)

/-- Claim C9: opposite moves invert each other away from the wall they
push against: RIGHT then LEFT, LEFT then RIGHT, UP then DOWN, and DOWN
then UP each return to s under the stated wall conditions. -/
theorem C9_opposite_moves_invert (s : Fin 9) :
    (coord_x s.val ≠ dim - 1 → P2 s.val 1 3 = some s.val) ∧
    (coord_x s.val ≠ 0 → P2 s.val 3 1 = some s.val) ∧
    (coord_y s.val ≠ 0 → P2 s.val 0 2 = some s.val) ∧
    (coord_y s.val ≠ dim - 1 → P2 s.val 2 0 = some s.val) := by
  revert s; decide

/-- Witness for C9 at the center state 4, which is away from all four
walls. -/
theorem C9_opposite_moves_invert_witness :
    P2 (4 : Fin 9).val 1 3 = some (4 : Fin 9).val ∧
    P2 (4 : Fin 9).val 3 1 = some (4 : Fin 9).val ∧
    P2 (4 : Fin 9).val 0 2 = some (4 : Fin 9).val ∧
    P2 (4 : Fin 9).val 2 0 = some (4 : Fin 9).val :=
  ⟨(C9_opposite_moves_invert 4).1 (by decide),
   (C9_opposite_moves_invert 4).2.1 (by decide),
   (C9_opposite_moves_invert 4).2.2.1 (by decide),
   (C9_opposite_moves_invert 4).2.2.2 (by decide)⟩

end GridWorld

namespace Demo

/-- A list of rationals whose entries are all 0 or 1 sums to its count
of ones. -/
lemma sum_eq_count_one (l : List ℚ) (h : l.all (fun q => q == 0 || q == 1) = true) :
    l.sum = (l.count 1 : ℚ) := by
  induction l with
  | nil => simp
  | cons a l ih =>
    simp only [List.all_cons, Bool.and_eq_true, Bool.or_eq_true, beq_iff_eq] at h
    obtain ⟨ha, hl⟩ := h
    rcases ha with h0 | h1
    · subst h0
      simp [List.count_cons, ih hl]
    · subst h1
      simp [List.count_cons, ih hl]
      ring

/-- Every entry of the transition array B of the tutorial is exactly the
raw value written into it, 0 or 1. -/
lemma B_entries_raw (ns s a : Nat) :
    GridWorld.B ns s a = 1 ∨ GridWorld.B ns s a = 0 := by
  unfold GridWorld.B
  split
  · exact Or.inl rfl
  · exact Or.inr rfl

/-- Claim C5: in the Option-2 hand-filled A-matrix stub, for every
hidden-state configuration and each observation modality, the entries
over that modality outcomes sum to 1. -/
theorem C5_stub_columns_sum_to_one :
    grass_col_sum ("rained", "on") = 1 ∧ grass_col_sum ("rained", "off") = 1 ∧
    grass_col_sum ("did_not_rain", "on") = 1 ∧
    grass_col_sum ("did_not_rain", "off") = 1 ∧
    weather_col_sum ("rained", "on") = 1 ∧
    weather_col_sum ("rained", "off") = 1 ∧
    weather_col_sum ("did_not_rain", "on") = 1 ∧
    weather_col_sum ("did_not_rain", "off") = 1 := by
  refine ⟨?_, ?_, ?_, ?_, ?_, ?_, ?_, ?_⟩ <;>
    · simp [grass_col_sum, weather_col_sum, grass_outcomes, weather_outcomes,
        A_stub_filled, create_A_matrix_stub, set_weather_block,
        sprinkler_states, set_cell]
      norm_num

/-- Claim C6: the spreadsheet round trip is the identity on the
A-matrix stub: reading back a written table yields, at every cell of the
table, the value that was written. -/
theorem C6_excel_round_trip (t : Stub) (r c : String × String)
    (hr : r ∈ row_labels) (hc : c ∈ col_labels) :
    read_A_matrix (to_excel t) r c = t r c := by
  fin_cases hr <;> fin_cases hc <;> rfl

/-- Witness for C6 on the filled stub at the (grass_observation, wet)
row and the (rained, on) column. -/
theorem C6_excel_round_trip_witness :
    read_A_matrix (to_excel A_stub_filled)
        ("grass_observation", "wet") ("rained", "on")
      = A_stub_filled ("grass_observation", "wet") ("rained", "on") :=
  C6_excel_round_trip A_stub_filled ("grass_observation", "wet")
    ("rained", "on") (by decide) (by decide)

/-- Claim C7: no construction step validates or rejects its input: a
cell assignment on the A stub stores any rational value verbatim,
leaves every other cell untouched, performs no renormalization and
enforces no probability-simplex check, and the tutorial B construction
likewise holds exactly the raw written values. -/
theorem C7_no_validation (t : Stub) (r c r2 c2 : String × String) (q : ℚ)
    (h : (r2, c2) ≠ (r, c)) :
    set_cell t r c q r c = q ∧ set_cell t r c q r2 c2 = t r2 c2 ∧
    (∀ ns s a : Nat, GridWorld.B ns s a = 1 ∨ GridWorld.B ns s a = 0) := by
  refine ⟨?_, ?_, fun ns s a => B_entries_raw ns s a⟩
  · simp [set_cell]
  · have hn : ¬(r2 = r ∧ c2 = c) := by
      intro hrc
      exact h (by simp [hrc.1, hrc.2])
    simp [set_cell, hn]

/-- Witness for C7: writing the value 5 (not a probability, and making
the column sum exceed 1) into the empty stub succeeds and is stored
verbatim. -/
theorem C7_no_validation_witness :
    set_cell create_A_matrix_stub ("grass_observation", "wet")
        ("rained", "on") 5 ("grass_observation", "wet") ("rained", "on") = 5 ∧
    set_cell create_A_matrix_stub ("grass_observation", "wet")
        ("rained", "on") 5 ("grass_observation", "dry") ("rained", "on")
      = create_A_matrix_stub ("grass_observation", "dry") ("rained", "on") ∧
    (∀ ns s a : Nat, GridWorld.B ns s a = 1 ∨ GridWorld.B ns s a = 0) :=
  C7_no_validation create_A_matrix_stub ("grass_observation", "wet")
    ("rained", "on") ("grass_observation", "dry") ("rained", "on") 5
    (by decide)

/-- The decidable one-hot facts about the observation object: the
length, the count of ones and that every entry is 0 or 1. -/
lemma observation_props : ∀ (i0 : Fin 2) (i1 : Fin 3) (g : Fin 2),
    ((build_observation [i0.val, i1.val]).getD g.val []).length
        = num_obs.getD g.val 0 ∧
    ((build_observation [i0.val, i1.val]).getD g.val []).count 1 = 1 ∧
    ((build_observation [i0.val, i1.val]).getD g.val []).all
        (fun q => q == 0 || q == 1) = true := by
  decide

/-- Claim C10: for every choice of in-range observation indices, the
observation object of the demo is one-hot in each modality: it has the
modality outcome dimension, exactly one entry equal to 1, all other
entries 0, and it sums to 1. -/
theorem C10_observation_one_hot (i0 : Fin 2) (i1 : Fin 3) (g : Fin 2) :
    ((build_observation [i0.val, i1.val]).getD g.val []).length
        = num_obs.getD g.val 0 ∧
    ((build_observation [i0.val, i1.val]).getD g.val []).count 1 = 1 ∧
    ((build_observation [i0.val, i1.val]).getD g.val []).all
        (fun q => q == 0 || q == 1) = true ∧
    ((build_observation [i0.val, i1.val]).getD g.val []).sum = 1 := by
  obtain ⟨h1, h2, h3⟩ := observation_props i0 i1 g
  refine ⟨h1, h2, h3, ?_⟩
  rw [sum_eq_count_one _ h3, h2]
  norm_num

end Demo
